import Mathlib

/-!
Shallow embedding of the `consulparser` Go package (files `parser.go` and
`error.go`) and proofs about its specification.

Modelling conventions:
* Go's `reflect` type kinds are embedded as the inductive `GoType`; runtime
  values as `GoVal`.  A destination location is a `(GoType, GoVal)` pair; the
  engine functions return the new value of the destination together with a
  `Signal` (normal return, returned `error`, or runtime panic).  In-place
  mutation of a field is modelled by the returned value.
* Machine integers are `Int`/`Nat` with explicit power-of-two range checks,
  mirroring `strconv.ParseInt/ParseUint` (base 10, bitSize 64) and
  `reflect.Value.OverflowInt/OverflowUint`.
* Go `float64` values are modelled as exact rationals `ℚ`; the decimal
  grammar of `strconv.ParseFloat` is embedded exactly, while IEEE-754
  rounding of in-range values is not modelled (all statements below stay far
  from rounding boundaries).  Hexadecimal floats, `inf`/`NaN` literals,
  digit-separating underscores and the underflow range error are not
  modelled; no statement depends on them.
* The consul collaborator `api.KV.Get` is modelled as a function
  `String → KVReply`: an error reply, an absent entry (Go: `pair == nil`,
  `err == nil`, which the real consul client produces for a missing key), or
  a found entry carrying its string value.
* The standard library `time.Parse` is an external collaborator and is a
  parameter (`Env.timeParse`); a parsed timestamp instant is a `Nat`.
* The package-level variable `timeLayout` is modelled by explicit state
  passing: the engine reads `Env.timeLayout`, and `SetTimeLayout` maps the
  prior global layout to the new one.
-/

namespace Consulparser

/-- Signed-integer kinds of `reflect`: `int`, `int8`, `int16`, `int32`,
`int64`.  Go's `int` is 64 bits wide on the platforms at hand but is a
distinct type from `int64` (this matters for `reflect.Value.Set`
assignability). -/
inductive IntTy
  | goInt
  | i8
  | i16
  | i32
  | i64
  deriving DecidableEq

/-- Unsigned-integer kinds of `reflect`: `uint`, `uint8`, `uint16`,
`uint32`, `uint64`, `uintptr`. -/
inductive UintTy
  | goUint
  | u8
  | u16
  | u32
  | u64
  | uptr
  deriving DecidableEq

/-- Floating-point kinds of `reflect`: `float32`, `float64`. -/
inductive FloatTy
  | f32
  | f64
  deriving DecidableEq

/-- Width in bits of a signed-integer kind. -/
def IntTy.bits : IntTy → Nat
  | .goInt => 64
  | .i8 => 8
  | .i16 => 16
  | .i32 => 32
  | .i64 => 64

/-- Width in bits of an unsigned-integer kind. -/
def UintTy.bits : UintTy → Nat
  | .goUint => 64
  | .u8 => 8
  | .u16 => 16
  | .u32 => 32
  | .u64 => 64
  | .uptr => 64

/-- `reflect.Value.Set` with a `reflect.ValueOf(temp)` where `temp : int64`
succeeds only when the destination type is exactly `int64` (Go assignability
of the named type `int64`); every other signed kind panics. -/
def IntTy.assignableFromInt64 : IntTy → Bool
  | .i64 => true
  | _ => false

/-- `reflect.Value.Set` with a `uint64` source value succeeds only on a
`uint64` destination. -/
def UintTy.assignableFromUint64 : UintTy → Bool
  | .u64 => true
  | _ => false

/-- `reflect.Value.Set` with a `float64` source value succeeds only on a
`float64` destination. -/
def FloatTy.assignableFromFloat64 : FloatTy → Bool
  | .f64 => true
  | _ => false

/-- The error values of the package (`error.go`), the errors produced by the
`strconv` parsers, and the errors surfaced by the external collaborators
(consul lookup, `time.Parse`). -/
inductive GoErr
  | errNilClient
  | errNonPointerType
  | errUnhandledKind
  | errOverflowSet
  | errEmptyLayout
  | errNumFormat (s : String)
  | errNumRange (s : String)
  | kvFailure (msg : String)
  | timeFailure (msg : String)
  deriving DecidableEq

/-- How a Go function call terminates: normal return, returned non-nil
`error`, or runtime panic (which unwinds the whole call; nothing recovers). -/
inductive Signal
  | ok
  | err (e : GoErr)
  | panic
  deriving DecidableEq

/-- Reply of the consul collaborator `api.KV.Get(key, nil)`:
a transport error (`err != nil`), an absent entry (`pair == nil` and
`err == nil`, consul's signal for a missing key), or a found entry with the
string contents of `pair.Value`. -/
inductive KVReply
  | failure (msg : String)
  | absent
  | found (value : String)

mutual
/-- Embedding of the `reflect` type kinds the engine dispatches on.
`timeStruct` stands for the struct type whose `Type().String()` is
`"time.Time"`; `structT` is any other struct, with its ordered field list.
`unsupported` stands for every kind not handled by the engine (maps, slices,
channels, ...), and `invalid` for the invalid `reflect.Value` obtained e.g.
from `Elem()` of a nil pointer. -/
inductive GoType
  | ptr (elem : GoType)
  | timeStruct
  | structT (fields : Fields)
  | stringT
  | ifaceT
  | intT (it : IntTy)
  | uintT (ut : UintTy)
  | floatT (ft : FloatTy)
  | boolT
  | unsupported
  | invalid

/-- The declared fields of a struct type, in declaration order.  Each field
carries its `consulkv` tag (the empty string when the tag is absent), its
settability (`reflect.Value.CanSet`: false for unexported fields), and its
type. -/
inductive Fields
  | nil
  | cons (tag : String) (settable : Bool) (ty : GoType) (rest : Fields)
end

/-- Embedding of Go runtime values.  A pointer is `none` (nil) or `some`
pointee; an interface slot holds `none` (nil interface) or a string (the
engine only ever stores strings into dynamic slots); a timestamp is the
abstract instant produced by `time.Parse`. -/
inductive GoVal
  | ptrV (p : Option GoVal)
  | timeV (t : Nat)
  | structV (fields : List GoVal)
  | stringV (s : String)
  | ifaceV (v : Option String)
  | intV (i : Int)
  | uintV (n : Nat)
  | floatV (q : ℚ)
  | boolV (b : Bool)
  | unsupportedV
  | invalidV

mutual
/-- The zero value of a type (`reflect.New(t).Elem()`). -/
def zeroVal : GoType → GoVal
  | .ptr _ => .ptrV none
  | .timeStruct => .timeV 0
  | .structT fs => .structV (zeroVals fs)
  | .stringT => .stringV ""
  | .ifaceT => .ifaceV none
  | .intT _ => .intV 0
  | .uintT _ => .uintV 0
  | .floatT _ => .floatV 0
  | .boolT => .boolV false
  | .unsupported => .unsupportedV
  | .invalid => .invalidV

/-- Zero values of a field list. -/
def zeroVals : Fields → List GoVal
  | .nil => []
  | .cons _ _ ty rest => zeroVal ty :: zeroVals rest
end

/-- Numeric value of a list of decimal digit characters. -/
def digitsVal : List Char → Nat :=
  List.foldl (fun acc c => 10 * acc + (c.toNat - '0'.toNat)) 0

/-- `strconv.ParseInt(s, 10, 64)`: optional sign, decimal digits, range
check against the signed 64-bit range.  On failure Go also returns a clamped
value, but every caller in the package discards it, so only the error is
modelled. -/
def parseGoInt (s : String) : Except GoErr Int :=
  let signAndDigits : Bool × List Char :=
    match s.data with
    | '-' :: rest => (true, rest)
    | '+' :: rest => (false, rest)
    | l => (false, l)
  let neg := signAndDigits.1
  let ds := signAndDigits.2
  if ds.isEmpty || ds.any (fun c => !c.isDigit) then .error (.errNumFormat s)
  else
    let n := digitsVal ds
    if neg then
      if 2 ^ 63 < n then .error (.errNumRange s) else .ok (-(n : Int))
    else
      if 2 ^ 63 ≤ n then .error (.errNumRange s) else .ok (n : Int)

/-- `strconv.ParseUint(s, 10, 64)`: decimal digits with no sign permitted,
range check against the unsigned 64-bit range. -/
def parseGoUint (s : String) : Except GoErr Nat :=
  if s.data.isEmpty || s.data.any (fun c => !c.isDigit) then
    .error (.errNumFormat s)
  else
    let n := digitsVal s.data
    if 2 ^ 64 ≤ n then .error (.errNumRange s) else .ok n

/-- `strconv.ParseBool`. -/
def parseGoBool (s : String) : Except GoErr Bool :=
  if s = "1" || s = "t" || s = "T" || s = "true" || s = "TRUE" || s = "True"
  then .ok true
  else if s = "0" || s = "f" || s = "F" || s = "false" || s = "FALSE" || s = "False"
  then .ok false
  else .error (.errNumFormat s)

/-- Largest finite `float64`, as an exact rational. -/
def maxFloat64 : ℚ := (2 ^ 53 - 1) * 2 ^ 971

/-- Largest finite `float32`, as an exact rational. -/
def maxFloat32 : ℚ := (2 ^ 24 - 1) * 2 ^ 104

/-- Splits the longest leading run of decimal digits off a character list. -/
def splitDigits : List Char → List Char × List Char
  | [] => ([], [])
  | c :: rest =>
    if c.isDigit then
      let dr := splitDigits rest
      (c :: dr.1, dr.2)
    else ([], c :: rest)

/-- `strconv.ParseFloat(s, 64)` on the decimal grammar: optional sign,
digits with optional fraction (at least one digit overall), optional decimal
exponent.  The value is the exact rational; a magnitude beyond the finite
`float64` range is the `strconv` range error (Go also returns ±Inf with the
error, which every caller here discards). -/
def parseGoFloat (s : String) : Except GoErr ℚ :=
  let signAndRest : ℚ × List Char :=
    match s.data with
    | '-' :: rest => (-1, rest)
    | '+' :: rest => (1, rest)
    | l => (1, l)
  let sign := signAndRest.1
  let ipRest := splitDigits signAndRest.2
  let fpRest : List Char × List Char :=
    match ipRest.2 with
    | '.' :: rest => splitDigits rest
    | l => ([], l)
  if ipRest.1.isEmpty && fpRest.1.isEmpty then .error (.errNumFormat s)
  else
    let mant : ℚ := (digitsVal (ipRest.1 ++ fpRest.1) : ℚ)
    let fracLen : Int := (fpRest.1.length : Int)
    match fpRest.2 with
    | [] =>
      let q := sign * mant * (10 : ℚ) ^ (-fracLen)
      if maxFloat64 < |q| then .error (.errNumRange s) else .ok q
    | c :: rest =>
      if c = 'e' || c = 'E' then
        let esignAndRest : Int × List Char :=
          match rest with
          | '-' :: r2 => (-1, r2)
          | '+' :: r2 => (1, r2)
          | l => (1, l)
        let edRest := splitDigits esignAndRest.2
        if edRest.1.isEmpty || !edRest.2.isEmpty then .error (.errNumFormat s)
        else
          let e : Int := esignAndRest.1 * (digitsVal edRest.1 : Int) - fracLen
          let q := sign * mant * (10 : ℚ) ^ e
          if maxFloat64 < |q| then .error (.errNumRange s) else .ok q
      else .error (.errNumFormat s)

/-- `reflect.Value.OverflowInt` on a destination of kind `it`. -/
def overflowInt (it : IntTy) (x : Int) : Bool :=
  x < -(2 ^ (it.bits - 1)) || (2 ^ (it.bits - 1) - 1 : Int) < x

/-- `reflect.Value.OverflowUint` on a destination of kind `ut`. -/
def overflowUint (ut : UintTy) (x : Nat) : Bool :=
  2 ^ ut.bits - 1 < x

/-- `reflect.Value.OverflowFloat` on a destination of kind `ft`. -/
def overflowFloat (ft : FloatTy) (q : ℚ) : Bool :=
  match ft with
  | .f32 => maxFloat32 < |q|
  | .f64 => maxFloat64 < |q|

/-- The `Parser` struct: its only field is the consul KV client. -/
structure Parser where
  consulKV : String → KVReply

/-- The ambient context of one bind invocation: the parser's consul client,
the external `time.Parse` collaborator, and the current contents of the
package-level variable `timeLayout`. -/
structure Env where
  consulKV : String → KVReply
  timeParse : String → String → Except GoErr Nat
  timeLayout : String

/-- Builds the ambient context of a bind through parser `p`: the consul
client is the parser's own; `time.Parse` and the global `timeLayout` are
shared by every parser instance. -/
def mkEnv (p : Parser) (tp : String → String → Except GoErr Nat)
    (layout : String) : Env :=
  { consulKV := p.consulKV, timeParse := tp, timeLayout := layout }

/-- `NewParser`: rejects a nil client, otherwise wraps its KV endpoint. -/
def NewParser (client : Option (String → KVReply)) : Except GoErr Parser :=
  match client with
  | none => .error .errNilClient
  | some kv => .ok { consulKV := kv }

/-- `getValue`: empty key returns the empty value with no lookup; otherwise
the consul client is consulted.  A transport error is returned; on a found
entry the value is returned.  On an absent entry (`pair == nil`,
`err == nil`) the source evaluates `string(pair.Value)`, a nil-pointer
dereference: a runtime panic. -/
def getValue (env : Env) (consulKey : String) : String × Signal :=
  if consulKey = "" then ("", .ok)
  else
    match env.consulKV consulKey with
    | .failure msg => ("", .err (.kvFailure msg))
    | .absent => ("", .panic)
    | .found v => (v, .ok)

/-- `SetTimeLayout`: a method of `Parser` whose body only touches the
package-level variable `timeLayout`, modelled as the prior global layout
mapped to the new one.  The receiver is unused by the body. -/
def SetTimeLayout (_p : Parser) (layout : String)
    (timeLayoutVar : String) : Option GoErr × String :=
  if layout = "" then (some .errEmptyLayout, timeLayoutVar)
  else (none, layout)

mutual
/-- `parse`: struct recursion.  Iterates the declared fields in order; a
field that is not settable is skipped before its tag is read; otherwise the
field's tag is resolved through `getValue` and the resolved value assigned.
The first error or panic aborts the loop, leaving earlier fields as
written and later fields untouched. -/
def parse (env : Env) : Fields → List GoVal → List GoVal × Signal
  | .nil, vs => (vs, .ok)
  | .cons tag settable ty rest, v :: vs =>
    if settable then
      match getValue env tag with
      | (_, .err e) => (v :: vs, .err e)
      | (_, .panic) => (v :: vs, .panic)
      | (value, .ok) =>
        match assign env ty v value with
        | (v', .ok) =>
          let tl := parse env rest vs
          (v' :: tl.1, tl.2)
        | (v', .err e) => (v' :: vs, .err e)
        | (v', .panic) => (v' :: vs, .panic)
    else
      let tl := parse env rest vs
      (v :: tl.1, tl.2)
  | .cons _ _ _ _, [] => ([], .panic)
termination_by fs _ => (sizeOf fs, 0)

/-- `assign`: kind dispatch between the pointer and non-pointer branches
(the Go `switch` has exactly the `Ptr` case and a default; the non-pointer
constructors are spelled out here only so that the termination measure sees
them). -/
def assign (env : Env) (t : GoType) (v : GoVal) (value : String) :
    GoVal × Signal :=
  match t with
  | .ptr e => assignPointer env e v value
  | .timeStruct => assignNonPointer env .timeStruct v value
  | .structT fs => assignNonPointer env (.structT fs) v value
  | .stringT => assignNonPointer env .stringT v value
  | .ifaceT => assignNonPointer env .ifaceT v value
  | .intT it => assignNonPointer env (.intT it) v value
  | .uintT ut => assignNonPointer env (.uintT ut) v value
  | .floatT ft => assignNonPointer env (.floatT ft) v value
  | .boolT => assignNonPointer env .boolT v value
  | .unsupported => assignNonPointer env .unsupported v value
  | .invalid => assignNonPointer env .invalid v value
termination_by (sizeOf t, 2)

/-- `assignPointer`: the destination is a pointer whose pointee kind is `e`;
`v` is the destination's current (pointer) value.  Every successful branch
allocates a fresh pointee and stores its reference with one `val.Set`;
failing branches return before the store, leaving `v` unchanged.  In the
numeric branches the parsed 64-bit temporary is stored with
`tempVal.Elem().Set(reflect.ValueOf(temp))`, which panics whenever the
pointee type is not exactly the 64-bit type of the temporary. -/
def assignPointer (env : Env) (e : GoType) (v : GoVal) (value : String) :
    GoVal × Signal :=
  match e with
  | .ptr e2 =>
    match assignPointer env e2 (.ptrV none) value with
    | (inner, .ok) => (.ptrV (some inner), .ok)
    | (_, .err er) => (v, .err er)
    | (_, .panic) => (v, .panic)
  | .timeStruct =>
    if value = "" then (v, .ok)
    else
      match env.timeParse env.timeLayout value with
      | .error er => (v, .err er)
      | .ok tv => (.ptrV (some (.timeV tv)), .ok)
  | .structT fs =>
    match parse env fs (zeroVals fs) with
    | (vs', .ok) => (.ptrV (some (.structV vs')), .ok)
    | (_, .err er) => (v, .err er)
    | (_, .panic) => (v, .panic)
  | .ifaceT =>
    if value = "" then (v, .ok)
    else (.ptrV (some (.ifaceV (some value))), .ok)
  | .stringT =>
    if value = "" then (v, .ok)
    else (.ptrV (some (.stringV value)), .ok)
  | .intT it =>
    if value = "" then (v, .ok)
    else
      match parseGoInt value with
      | .error er => (v, .err er)
      | .ok temp =>
        if overflowInt it temp then (v, .err .errOverflowSet)
        else if it.assignableFromInt64 then (.ptrV (some (.intV temp)), .ok)
        else (v, .panic)
  | .uintT ut =>
    if value = "" then (v, .ok)
    else
      match parseGoUint value with
      | .error er => (v, .err er)
      | .ok temp =>
        if overflowUint ut temp then (v, .err .errOverflowSet)
        else if ut.assignableFromUint64 then (.ptrV (some (.uintV temp)), .ok)
        else (v, .panic)
  | .floatT ft =>
    if value = "" then (v, .ok)
    else
      match parseGoFloat value with
      | .error er => (v, .err er)
      | .ok temp =>
        if overflowFloat ft temp then (v, .err .errOverflowSet)
        else if ft.assignableFromFloat64 then (.ptrV (some (.floatV temp)), .ok)
        else (v, .panic)
  | .boolT =>
    if value = "" then (v, .ok)
    else
      match parseGoBool value with
      | .error er => (v, .err er)
      | .ok temp => (.ptrV (some (.boolV temp)), .ok)
  | _ => (v, .err .errUnhandledKind)
termination_by (sizeOf e, 3)

/-- `assignNonPointer`: direct per-kind dispatch on the destination, writing
in place with `SetInt`/`SetUint`/`SetFloat`/`SetBool`/`Set`.  The default
arm (pointer destinations never reach this function through `assign`;
unsupported and invalid kinds do) returns the unhandled-kind error. -/
def assignNonPointer (env : Env) (t : GoType) (v : GoVal) (value : String) :
    GoVal × Signal :=
  match t with
  | .timeStruct =>
    if value = "" then (v, .ok)
    else
      match env.timeParse env.timeLayout value with
      | .error er => (v, .err er)
      | .ok tv => (.timeV tv, .ok)
  | .structT fs =>
    match v with
    | .structV vs =>
      let r := parse env fs vs
      (.structV r.1, r.2)
    | _ => (v, .panic)
  | .ifaceT =>
    if value = "" then (v, .ok) else (.ifaceV (some value), .ok)
  | .stringT =>
    if value = "" then (v, .ok) else (.stringV value, .ok)
  | .intT it =>
    if value = "" then (v, .ok)
    else
      match parseGoInt value with
      | .error er => (v, .err er)
      | .ok temp =>
        if overflowInt it temp then (v, .err .errOverflowSet)
        else (.intV temp, .ok)
  | .uintT ut =>
    if value = "" then (v, .ok)
    else
      match parseGoUint value with
      | .error er => (v, .err er)
      | .ok temp =>
        if overflowUint ut temp then (v, .err .errOverflowSet)
        else (.uintV temp, .ok)
  | .floatT ft =>
    if value = "" then (v, .ok)
    else
      match parseGoFloat value with
      | .error er => (v, .err er)
      | .ok temp =>
        if overflowFloat ft temp then (v, .err .errOverflowSet)
        else (.floatV temp, .ok)
  | .boolT =>
    if value = "" then (v, .ok)
    else
      match parseGoBool value with
      | .error er => (v, .err er)
      | .ok temp => (.boolV temp, .ok)
  | _ => (v, .err .errUnhandledKind)
termination_by (sizeOf t, 1)
end

/-- Whether a type is of pointer kind (`reflect.Kind() == reflect.Ptr`). -/
def isPtrKind : GoType → Bool
  | .ptr _ => true
  | _ => false

/-- Whether a value is a pointer value. -/
def isPtrVal : GoVal → Bool
  | .ptrV _ => true
  | _ => false

/-- `getRecursivePointerVal`: unwinds pointer layers down to the first
non-pointer referent.  `Elem()` of a nil pointer is the invalid
`reflect.Value`, whose kind is `Invalid`, stopping the recursion there. -/
def getRecursivePointerVal : GoType × GoVal → GoType × GoVal
  | (.ptr e, .ptrV (some inner)) => getRecursivePointerVal (e, inner)
  | (.ptr _, _) => (.invalid, .invalidV)
  | (t, v) => (t, v)

/-- Models the in-place mutation of the unwound referent becoming visible
through the original pointer chain: the first non-pointer leaf of the chain
is replaced by the referent's new value; a nil link stops the walk (nothing
reachable was written there). -/
def writeBack : GoVal → GoVal → GoVal
  | .ptrV (some inner), r => .ptrV (some (writeBack inner r))
  | .ptrV none, _ => .ptrV none
  | _, r => r

/-- `Parse`: validates that the target is a pointer-kind reference, unwinds
nested pointer layers to the first non-pointer referent, and assigns it with
the empty top-level value. -/
def Parse (env : Env) (t : GoType) (v : GoVal) : GoVal × Signal :=
  if isPtrKind t then
    let tv := getRecursivePointerVal (t, v)
    let r := assign env tv.1 tv.2 ""
    (writeBack v r.1, r.2)
  else (v, .err .errNonPointerType)

/-- The body of one iteration of the struct-recursion loop, for a field with
tag `tag`, settability `settable`, type `ty` and current value `v`: skip if
not settable, otherwise resolve the tag and assign the resolved value. -/
def fieldStep (env : Env) (tag : String) (settable : Bool) (ty : GoType)
    (v : GoVal) : GoVal × Signal :=
  if settable then
    match getValue env tag with
    | (_, .err e) => (v, .err e)
    | (_, .panic) => (v, .panic)
    | (value, .ok) => assign env ty v value
  else (v, .ok)

/-- Runs the struct-recursion loop over a run of fields on which every
iteration succeeds, returning their new values (`none` if any iteration does
not terminate normally or the lists mismatch). -/
def runInit (env : Env) : Fields → List GoVal → Option (List GoVal)
  | .nil, [] => some []
  | .cons tag st ty rest, v :: vs =>
    match fieldStep env tag st ty v with
    | (v', .ok) => Option.map (fun ws => v' :: ws) (runInit env rest vs)
    | _ => none
  | _, _ => none

/-- Concatenation of field lists. -/
def Fields.append : Fields → Fields → Fields
  | .nil, gs => gs
  | .cons tag st ty rest, gs => .cons tag st ty (Fields.append rest gs)

/-- `n` nested pointer layers around a type. -/
def wrapT : Nat → GoType → GoType
  | 0, t => t
  | n + 1, t => .ptr (wrapT n t)

/-- `n` nested non-nil pointer layers around a value. -/
def wrapV : Nat → GoVal → GoVal
  | 0, v => v
  | n + 1, v => .ptrV (some (wrapV n v))

/-- The type-kinds with a notion of emptiness: every kind the engine
handles except pointers and non-temporal structs. -/
def isLeafKind : GoType → Bool
  | .timeStruct => true
  | .stringT => true
  | .ifaceT => true
  | .intT _ => true
  | .uintT _ => true
  | .floatT _ => true
  | .boolT => true
  | _ => false

/-- The primitive (non-struct, non-pointer) kinds: string, interface,
integer, unsigned, float, boolean. -/
def isPrimKind : GoType → Bool
  | .stringT => true
  | .ifaceT => true
  | .intT _ => true
  | .uintT _ => true
  | .floatT _ => true
  | .boolT => true
  | _ => false

/-- The default contents of the package-level `timeLayout` variable:
`time.RFC3339`. -/
def rfc3339Layout : String := "2006-01-02T15:04:05Z07:00"

/-- A context whose store holds no keys at all (every lookup reply is the
absent entry), with a trivial timestamp collaborator. -/
def env0 : Env :=
  { consulKV := fun _ => .absent
    timeParse := fun _ _ => .ok 0
    timeLayout := rfc3339Layout }

/-- A store holding only the key `"a"` (with value `"1"`); every other
lookup fails with a transport error. -/
def env3 : Env :=
  { consulKV := fun k => if k = "a" then .found "1" else .failure "boom"
    timeParse := fun _ _ => .ok 0
    timeLayout := rfc3339Layout }

section EngineLemmas

/-- Structural induction for `Fields` alone (the mutually-defined recursor
of `GoType`/`Fields` has several motives, so `induction` cannot use it
directly). -/
theorem Fields.inductionOn {motive : Fields → Prop} (fs : Fields)
    (hnil : motive .nil)
    (hcons : ∀ tag st ty rest, motive rest → motive (.cons tag st ty rest)) :
    motive fs := by
  cases fs with
  | nil => exact hnil
  | cons tag st ty rest =>
    exact hcons tag st ty rest (Fields.inductionOn rest hnil hcons)
termination_by sizeOf fs

/-- One unfolding of the struct-recursion loop, phrased through
`fieldStep`. -/
theorem parse_cons (env : Env) (tag : String) (st : Bool) (ty : GoType)
    (rest : Fields) (v : GoVal) (vs : List GoVal) :
    parse env (.cons tag st ty rest) (v :: vs) =
      match fieldStep env tag st ty v with
      | (v', .ok) => (v' :: (parse env rest vs).1, (parse env rest vs).2)
      | (v', .err e) => (v' :: vs, .err e)
      | (v', .panic) => (v' :: vs, .panic) := by
  rcases hst : st with _ | _
  · simp [parse, fieldStep, hst]
  · simp only [parse, fieldStep, if_true]
    rcases hg : getValue env tag with ⟨value, sig⟩
    rcases sig with _ | e | _ <;> simp [hg]

/-- Assigning the empty raw value to a destination of a kind with a notion
of emptiness leaves it untouched and returns no error. -/
theorem assign_leaf_empty (env : Env) (t : GoType) (v : GoVal)
    (h : isLeafKind t = true) : assign env t v "" = (v, .ok) := by
  cases t <;> simp_all [isLeafKind, assign, assignNonPointer]

/-- The same, one pointer level up: a pointer destination whose pointee kind
has a notion of emptiness is left untouched by the empty raw value. -/
theorem assignPointer_leaf_empty (env : Env) (t : GoType) (v : GoVal)
    (h : isLeafKind t = true) : assignPointer env t v "" = (v, .ok) := by
  cases t <;> simp_all [isLeafKind, assignPointer]

/-- Unwinding stops at once on a non-pointer kind. -/
theorem getRecursivePointerVal_nonptr (t : GoType) (v : GoVal)
    (h : isPtrKind t = false) : getRecursivePointerVal (t, v) = (t, v) := by
  cases t <;> simp_all [isPtrKind, getRecursivePointerVal]

/-- Unwinding a non-nil chain of `n + 1` pointer layers reaches the
underlying non-pointer referent. -/
theorem getRecursivePointerVal_wrap (n : Nat) (t : GoType) (v : GoVal)
    (h : isPtrKind t = false) :
    getRecursivePointerVal (wrapT (n + 1) t, wrapV (n + 1) v) = (t, v) := by
  induction n with
  | zero => simp [wrapT, wrapV, getRecursivePointerVal,
      getRecursivePointerVal_nonptr _ _ h]
  | succ m ih => simpa [wrapT, wrapV, getRecursivePointerVal] using ih

/-- Writing through a non-pointer value replaces it. -/
theorem writeBack_nonptr (v r : GoVal) (h : isPtrVal v = false) :
    writeBack v r = r := by
  cases v <;> simp_all [isPtrVal, writeBack]

/-- Writing the referent back through a non-nil chain keeps the chain and
replaces the leaf. -/
theorem writeBack_wrap (n : Nat) (v r : GoVal) (h : isPtrVal v = false) :
    writeBack (wrapV (n + 1) v) r = wrapV (n + 1) r := by
  induction n with
  | zero => simp [wrapV, writeBack, writeBack_nonptr _ _ h]
  | succ m ih => simpa [wrapV, writeBack] using ih

/-- `Parse` on a non-nil pointer chain: the chain is unwound, the referent
is assigned with the empty top-level value, and the chain is rebuilt around
the referent's new value. -/
theorem Parse_wrap (env : Env) (n : Nat) (t : GoType) (v : GoVal)
    (ht : isPtrKind t = false) (hv : isPtrVal v = false) :
    Parse env (wrapT (n + 1) t) (wrapV (n + 1) v) =
      (wrapV (n + 1) (assign env t v "").1, (assign env t v "").2) := by
  have h1 := getRecursivePointerVal_wrap n t v ht
  have h2 := writeBack_wrap n v (assign env t v "").1 hv
  simp [Parse, wrapT, isPtrKind, wrapV] at h1 h2 ⊢
  simp [h1, h2]

end EngineLemmas

/-- Claim C1, counterexample.  The claim states that an empty raw value
leaves every destination of every type-kind except struct recursion
untouched with no error, and in particular leaves every pointer destination
of any indirection depth nil with no allocation.  At the concrete
destination of type pointer-to-pointer-to-int64 holding nil, the empty raw
value allocates: the destination is set to a non-nil pointer (to a nil
inner pointer) rather than left untouched. -/
theorem c1_counterexample :
    assign env0 (.ptr (.ptr (.intT .i64))) (.ptrV none) "" =
      (.ptrV (some (.ptrV none)), .ok) ∧
    (GoVal.ptrV (some (.ptrV none)) : GoVal) ≠ .ptrV none := by
  constructor
  · simp [assign, assignPointer]
  · simp

/-- Claim C1, amended: assigning an empty raw value leaves the destination
untouched and produces no error for every destination, direct or behind a
single pointer, whose (pointee) kind has a notion of emptiness — temporal,
string, interface, signed, unsigned, float, boolean; struct recursion
always proceeds; an unsupported kind returns the unhandled-kind error even
on an empty value; and pointer destinations of depth two or more (and
pointers to structs) allocate even on an empty value. -/
theorem c1_empty_untouched (env : Env) (t : GoType) (v p : GoVal)
    (h : isLeafKind t = true) :
    assign env t v "" = (v, .ok) ∧
    assign env (.ptr t) p "" = (p, .ok) ∧
    assign env .unsupported v "" = (v, .err .errUnhandledKind) := by
  refine ⟨assign_leaf_empty env t v h, ?_, ?_⟩
  · have := assignPointer_leaf_empty env t p h
    simp [assign, this]
  · simp [assign, assignNonPointer]

/-- Claim C1 witness: the amended statement at the concrete destination
kinds int8 (direct and behind one pointer) and an unsupported kind. -/
theorem c1_empty_untouched_witness :
    assign env0 (.intT .i8) (.intV 7) "" = (.intV 7, .ok) ∧
    assign env0 (.ptr (.intT .i8)) (.ptrV none) "" = (.ptrV none, .ok) ∧
    assign env0 .unsupported (.unsupportedV) "" =
      (.unsupportedV, .err .errUnhandledKind) := by
  have h := c1_empty_untouched env0 (.intT .i8) (.intV 7) (.ptrV none)
    (by decide)
  exact ⟨h.1, h.2.1, (c1_empty_untouched env0 (.intT .i8) .unsupportedV
    (.ptrV none) (by decide)).2.2⟩

/-- Claim C2: for any destination, pointer or direct, of signed, unsigned
or floating-point kind, a textual value that parses but whose magnitude
overflows the destination's concrete width causes `assign` to return the
overflow error and leave the destination unwritten. -/
theorem c2_overflow_error (env : Env) (it : IntTy) (ut : UintTy)
    (ft : FloatTy) (v : GoVal) (value : String) (ti : Int) (tu : Nat)
    (tf : ℚ) :
    (parseGoInt value = .ok ti → overflowInt it ti = true →
      assign env (.intT it) v value = (v, .err .errOverflowSet) ∧
      assign env (.ptr (.intT it)) v value = (v, .err .errOverflowSet)) ∧
    (parseGoUint value = .ok tu → overflowUint ut tu = true →
      assign env (.uintT ut) v value = (v, .err .errOverflowSet) ∧
      assign env (.ptr (.uintT ut)) v value = (v, .err .errOverflowSet)) ∧
    (parseGoFloat value = .ok tf → overflowFloat ft tf = true →
      assign env (.floatT ft) v value = (v, .err .errOverflowSet) ∧
      assign env (.ptr (.floatT ft)) v value = (v, .err .errOverflowSet)) := by
  refine ⟨fun hp ho => ?_, fun hp ho => ?_, fun hp ho => ?_⟩ <;>
  · have hv : value ≠ "" := by
      intro he
      rw [he] at hp
      simp [parseGoInt, parseGoUint, parseGoFloat, splitDigits] at hp
    constructor <;>
      simp [assign, assignNonPointer, assignPointer, hv, hp, ho]

/-- Claim C2 witness: an int8 destination given the value 200 fails with
the overflow error and stays at its prior value, both directly and behind
a pointer. -/
theorem c2_overflow_error_witness :
    parseGoInt "200" = .ok 200 ∧ overflowInt .i8 200 = true ∧
    assign env0 (.intT .i8) (.intV 0) "200" = (.intV 0, .err .errOverflowSet) ∧
    assign env0 (.ptr (.intT .i8)) (.ptrV none) "200" =
      (.ptrV none, .err .errOverflowSet) := by
  have hp : parseGoInt "200" = .ok 200 := by simp [parseGoInt, digitsVal]
  have ho : overflowInt .i8 200 = true := by decide
  have h := (c2_overflow_error env0 .i8 .u8 .f32 (.intV 0) "200" 200 0 0).1
    hp ho
  have h2 := (c2_overflow_error env0 .i8 .u8 .f32 (.ptrV none) "200" 200 0
    0).1 hp ho
  exact ⟨hp, ho, h.1, h2.2⟩

/-- Claim C3: during struct recursion, the first field (in declaration
order) whose step fails aborts the whole bind: the error is returned
unchanged, the fields before it keep exactly the values their own
assignments produced (no rollback), and the fields after it are never
touched. -/
theorem c3_first_error_aborts (env : Env) (pre post : Fields) (tag : String)
    (st : Bool) (ty : GoType) (vpre vpost : List GoVal) (vf vf' : GoVal)
    (ws : List GoVal) (e : GoErr)
    (hpre : runInit env pre vpre = some ws)
    (hf : fieldStep env tag st ty vf = (vf', .err e)) :
    parse env (Fields.append pre (.cons tag st ty post))
        (vpre ++ vf :: vpost) =
      (ws ++ vf' :: vpost, .err e) := by
  induction pre using Fields.inductionOn generalizing vpre ws with
  | hnil =>
    cases vpre with
    | nil =>
      simp [runInit] at hpre
      subst hpre
      simp [Fields.append, parse_cons, hf]
    | cons a as => simp [runInit] at hpre
  | hcons tag2 st2 ty2 rest ih =>
    cases vpre with
    | nil => simp [runInit] at hpre
    | cons v2 vs2 =>
      rw [runInit] at hpre
      rcases h2 : fieldStep env tag2 st2 ty2 v2 with ⟨v2', sig2⟩
      rcases sig2 with _ | e2 | _ <;> rw [h2] at hpre <;>
        simp only [Option.map_eq_some'] at hpre
      · obtain ⟨ws', hws', rfl⟩ := hpre
        simp only [Fields.append, List.cons_append, parse_cons, h2]
        rw [ih vs2 ws' hws']
      · exact absurd hpre (by simp)
      · exact absurd hpre (by simp)

/-- Claim C3 witness: a three-field struct where the first field binds
successfully, the second field's lookup fails with a transport error, and
the third is never touched; the first field keeps its written value. -/
theorem c3_first_error_aborts_witness :
    runInit env3 (.cons "a" true (.intT .i64) .nil) [.intV 0] =
      some [.intV 1] ∧
    fieldStep env3 "b" true .stringT (.stringV "") =
      (.stringV "", .err (.kvFailure "boom")) ∧
    parse env3
        (Fields.append (.cons "a" true (.intT .i64) .nil)
          (.cons "b" true .stringT (.cons "c" true .stringT .nil)))
        [.intV 0, .stringV "", .stringV "old"] =
      ([.intV 1, .stringV "", .stringV "old"], .err (.kvFailure "boom")) := by
  have h1 : runInit env3 (.cons "a" true (.intT .i64) .nil) [.intV 0] =
      some [.intV 1] := by
    simp [runInit, fieldStep, getValue, env3, assign, assignNonPointer,
      parseGoInt, digitsVal, overflowInt, IntTy.bits]
  have h2 : fieldStep env3 "b" true .stringT (.stringV "") =
      (.stringV "", .err (.kvFailure "boom")) := by
    simp [fieldStep, getValue, env3]
  have h3 := c3_first_error_aborts env3 (.cons "a" true (.intT .i64) .nil)
    (.cons "c" true .stringT .nil) "b" true .stringT [.intV 0]
    [.stringV "old"] (.stringV "") (.stringV "") [.intV 1]
    (.kvFailure "boom") h1 h2
  exact ⟨h1, h2, by simpa using h3⟩

/-- Claim C4, evaluated at the failing input.  The claim states that
pointer depth is unwound uniformly: the same type-compatible textual value
yields the same logical leaf value at every indirection depth.  For the
in-range value 100 this holds at a direct int8 destination (it becomes
100), yet the single-indirection destination of type pointer-to-int8
panics: the success path of the pointer branch stores the parsed 64-bit
temporary with `reflect.Value.Set`, and `int64` is not assignable to
`int8`.  (The pointee-width overflow check right before the store shows
narrow widths were meant to be supported; at the 64-bit width the uniform
behavior the claim describes is exhibited.) -/
theorem c4_narrow_pointer_panics :
    assignNonPointer env0 (.intT .i8) (.intV 0) "100" = (.intV 100, .ok) ∧
    assign env0 (.ptr (.intT .i8)) (.ptrV none) "100" =
      (.ptrV none, .panic) ∧
    assignNonPointer env0 (.intT .i64) (.intV 0) "100" = (.intV 100, .ok) ∧
    assign env0 (.ptr (.intT .i64)) (.ptrV none) "100" =
      (.ptrV (some (.intV 100)), .ok) ∧
    assign env0 (.ptr (.ptr (.intT .i64))) (.ptrV none) "100" =
      (.ptrV (some (.ptrV (some (.intV 100)))), .ok) := by
  refine ⟨?_, ?_, ?_, ?_, ?_⟩ <;>
    simp [assign, assignNonPointer, assignPointer, parseGoInt, digitsVal,
      overflowInt, IntTy.bits, IntTy.assignableFromInt64]

/-- Claim C5, evaluated at the failing input.  The claim states that a
lookup of a key the collaborator reports as absent (an absent entry with no
transport error — consul's signal for a missing key) propagates as an
error and that the resolver is total on it.  In the source, `getValue`
evaluates `string(pair.Value)` without a nil check, so the absent entry is
a nil-pointer dereference: a panic, not a returned error, which then
unwinds the surrounding bind.  A transport error, by contrast, is returned
as an error, and the empty key performs no lookup. -/
theorem c5_absent_entry_panics :
    getValue env0 "k" = ("", .panic) ∧
    parse env0 (.cons "k" true .stringT .nil) [.stringV ""] =
      ([.stringV ""], .panic) ∧
    getValue env3 "b" = ("", .err (.kvFailure "boom")) ∧
    getValue env0 "" = ("", .ok) := by
  refine ⟨?_, ?_, ?_, ?_⟩ <;>
    simp [getValue, env0, env3, parse, assign, assignNonPointer]

/-- Claim C6: a top-level target that is not a pointer-kind reference makes
`Parse` return the invalid-target error with no store lookup (the result is
the same for every environment, so no lookup can have occurred); a pointer
target has its nested pointer layers unwound down to the first non-pointer
referent, which is then bound with the empty top-level key. -/
theorem c6_entry_validation (env : Env) (t u : GoType) (v w : GoVal)
    (n : Nat) (ht : isPtrKind t = false) (hu : isPtrKind u = false)
    (hw : isPtrVal w = false) :
    Parse env t v = (v, .err .errNonPointerType) ∧
    Parse env (wrapT (n + 1) u) (wrapV (n + 1) w) =
      (wrapV (n + 1) (assign env u w "").1, (assign env u w "").2) := by
  exact ⟨by simp [Parse, ht], Parse_wrap env n u w hu hw⟩

/-- Claim C6 witness: a structure value passed directly fails with the
invalid-target error; a triple-pointer to a struct is unwound to the
struct and bound (here an empty struct, which binds trivially). -/
theorem c6_entry_validation_witness :
    Parse env0 (.structT .nil) (.structV []) =
      (.structV [], .err .errNonPointerType) ∧
    Parse env0 (wrapT 3 (.structT .nil)) (wrapV 3 (.structV [])) =
      (wrapV 3 (.structV []), .ok) := by
  have h := c6_entry_validation env0 (.structT .nil) (.structT .nil)
    (.structV []) (.structV []) 2 rfl rfl rfl
  refine ⟨h.1, ?_⟩
  have ha : assign env0 (.structT .nil) (.structV []) "" =
      (.structV [], .ok) := by
    simp [assign, assignNonPointer, parse]
  rw [h.2, ha]

/-- Claim C7: calling the layout setter with the empty string returns the
dedicated invalid-configuration error and leaves the process-wide layout
unchanged; calling it with any non-empty string returns no error, replaces
the layout, and every subsequent temporal parse uses the new layout. -/
theorem c7_set_time_layout (p : Parser) (st s val : String)
    (kv : String → KVReply) (tp : String → String → Except GoErr Nat)
    (t0 : Nat) (hs : s ≠ "") (hval : val ≠ "") :
    SetTimeLayout p "" st = (some .errEmptyLayout, st) ∧
    SetTimeLayout p s st = (none, s) ∧
    assignNonPointer
        { consulKV := kv, timeParse := tp,
          timeLayout := (SetTimeLayout p s st).2 }
        .timeStruct (.timeV t0) val =
      (match tp s val with
       | .ok tv => (.timeV tv, .ok)
       | .error er => (.timeV t0, .err er)) := by
  refine ⟨by simp [SetTimeLayout], by simp [SetTimeLayout, hs], ?_⟩
  rcases h : tp s val with er | tv <;>
    simp [assignNonPointer, SetTimeLayout, hs, hval, h]

/-- Claim C7 witness: the setter at the empty string and at the concrete
layout string "L", with a concrete timestamp collaborator observing the
new layout. -/
theorem c7_set_time_layout_witness :
    SetTimeLayout ⟨fun _ => .absent⟩ "" "prior" =
      (some .errEmptyLayout, "prior") ∧
    SetTimeLayout ⟨fun _ => .absent⟩ "L" "prior" = (none, "L") ∧
    assignNonPointer
        { consulKV := fun _ => .absent
          timeParse := fun l v => .ok (l.length + v.length)
          timeLayout := (SetTimeLayout ⟨fun _ => .absent⟩ "L" "prior").2 }
        .timeStruct (.timeV 7) "xy" =
      (.timeV 3, .ok) := by
  have h := c7_set_time_layout ⟨fun _ => .absent⟩ "prior" "L" "xy"
    (fun _ => .absent) (fun l v => .ok (l.length + v.length)) 7
    (by decide) (by decide)
  exact ⟨h.1, h.2.1, by simpa using h.2.2⟩

/-- Claim C8: for every non-nil pointer target whose ultimate non-pointer
referent is of a primitive kind (string, interface, integer, unsigned,
float, or boolean), `Parse` returns no error and leaves the referent
unchanged — and since the result is the same for every environment, no
store lookup occurs: the empty top-level key silently no-ops instead of
reporting that the target is not a bindable structure. -/
theorem c8_primitive_target_noop (env : Env) (t : GoType) (v : GoVal)
    (n : Nat) (ht : isPrimKind t = true) (hv : isPtrVal v = false) :
    Parse env (wrapT (n + 1) t) (wrapV (n + 1) v) = (wrapV (n + 1) v, .ok) := by
  have hleaf : isLeafKind t = true := by
    cases t <;> simp_all [isPrimKind, isLeafKind]
  have ha := assign_leaf_empty env t v hleaf
  rw [Parse_wrap env n t v (by cases t <;> simp_all [isPrimKind, isPtrKind])
    hv, ha]

/-- Claim C8 witness: a double pointer to a string binds to no error and
leaves the string unchanged, in an environment whose store would fail every
lookup. -/
theorem c8_primitive_target_noop_witness :
    Parse env3 (wrapT 2 .stringT) (wrapV 2 (.stringV "keep")) =
      (wrapV 2 (.stringV "keep"), .ok) :=
  c8_primitive_target_noop env3 .stringT (.stringV "keep") 1 rfl rfl

/-- Claim C9: a field that is not settable is skipped before its tag is
read or its key resolved — its step succeeds with the field's prior value
for every environment and every tag (so no lookup happens and a failing
key named by its tag cannot abort the bind), and the struct-recursion loop
simply passes over it to the remaining fields. -/
theorem c9_non_settable_skipped (env : Env) (tag : String) (ty : GoType)
    (v : GoVal) (rest : Fields) (vs : List GoVal) :
    fieldStep env tag false ty v = (v, .ok) ∧
    parse env (.cons tag false ty rest) (v :: vs) =
      (v :: (parse env rest vs).1, (parse env rest vs).2) := by
  exact ⟨by simp [fieldStep], by simp [parse]⟩

/-- Claim C10: the layout setter validates nothing beyond non-emptiness —
every non-empty string is accepted, meaningful time layout or not — and
the stored layout is the single process-wide variable shared by all parser
instances: a layout set through parser `p` is the one observed by temporal
parses made through any other parser `q`. -/
theorem c10_layout_global_shared (p q : Parser) (st s val : String)
    (tp : String → String → Except GoErr Nat) (t0 : Nat) (hs : s ≠ "")
    (hval : val ≠ "") :
    SetTimeLayout p s st = (none, s) ∧
    assignNonPointer (mkEnv q tp (SetTimeLayout p s st).2) .timeStruct
        (.timeV t0) val =
      (match tp s val with
       | .ok tv => (.timeV tv, .ok)
       | .error er => (.timeV t0, .err er)) := by
  refine ⟨by simp [SetTimeLayout, hs], ?_⟩
  rcases h : tp s val with er | tv <;>
    simp [assignNonPointer, mkEnv, SetTimeLayout, hs, hval, h]

/-- Claim C10 witness: a string that is not a meaningful time layout is
accepted through one parser instance and observed by a temporal parse made
through a different parser instance (the two parsers have different
stores). -/
theorem c10_layout_global_shared_witness :
    SetTimeLayout ⟨fun _ => .absent⟩ "not a time layout" "prior" =
      (none, "not a time layout") ∧
    assignNonPointer
        (mkEnv ⟨fun _ => .found "42"⟩ (fun l v => .ok (l.length + v.length))
          (SetTimeLayout ⟨fun _ => .absent⟩ "not a time layout" "prior").2)
        .timeStruct (.timeV 7) "z" =
      (.timeV 18, .ok) := by
  have h := c10_layout_global_shared ⟨fun _ => .absent⟩ ⟨fun _ => .found "42"⟩
    "prior" "not a time layout" "z" (fun l v => .ok (l.length + v.length)) 7
    (by decide) (by decide)
  exact ⟨h.1, by simpa using h.2⟩

end Consulparser
